import Mathlib

/-!
Verification of the turn-processing orchestration engine of the Ragent
repository against its natural-language specification.

The Python sources under `src/` are shallowly embedded as Lean definitions:
dictionaries become association lists, external capabilities (LLM calls,
tool execution, fact extraction) become explicit oracle parameters of type
`Except String _` so that both their results and the exceptions they raise
are visible, and each stateful class becomes a structure with explicit state
passing.
-/

namespace Ragent

/-- Association-list lookup modelling Python `dict` access
(`d[k]` / `k in d`): the first pair whose key equals `k` wins. -/
def dictLookup (d : List (String × String)) (k : String) : Option String :=
  (d.find? (fun p => p.1 == k)).map (·.2)

/-- Model of the Python dict merge `\x7b**a, **b\x7d` at lookup level: keys of
`b` overwrite keys of `a`. (The insertion order of overwritten keys is not
preserved by this model; no claim concerns key order.) -/
def dictMerge (a b : List (String × String)) : List (String × String) :=
  a.filter (fun p => (dictLookup b p.1).isNone) ++ b

/-- Python `dict.__setitem__`: replace the value if the key is present, else append. -/
def dictPutQ (d : List (String × ℚ)) (k : String) (v : ℚ) : List (String × ℚ) :=
  if (d.find? (fun p => p.1 == k)).isSome then
    d.map (fun p => if p.1 == k then (k, v) else p)
  else d ++ [(k, v)]

/-- Lookup in the `ℚ`-valued dict used for throttle timestamps. -/
def dictLookupQ (d : List (String × ℚ)) (k : String) : Option ℚ :=
  (d.find? (fun p => p.1 == k)).map (·.2)

-- ===============================
-- src/utils/track_progress.py — ProgressCallback
-- ===============================

/-- An observer callback registered for a session.  `fails` models a callback
that raises when invoked (the source swallows such exceptions inside the
delivery loop). -/
structure Observer where
  id : Nat
  fails : Bool
deriving DecidableEq

/-- State of the `ProgressCallback` singleton: `callbacks` is the
session → observer-list dict, `lastUpdates` is the `_last_updates` dict of
throttle timestamps (event-loop time in seconds, modelled as `ℚ`). -/
structure PCState where
  callbacks : List (String × List Observer)
  lastUpdates : List (String × ℚ)
deriving DecidableEq

/-- Lookup `callbacks.get(session_id)`. -/
def pcLookup (st : PCState) (sid : String) : Option (List Observer) :=
  (st.callbacks.find? (fun p => p.1 == sid)).map (·.2)

/-- Model of `ProgressCallback.register_callback`: create the list for the session if
absent, then append the callback. -/
def register_callback (st : PCState) (sid : String) (c : Observer) : PCState :=
  match pcLookup st sid with
  | some cs =>
      { st with callbacks :=
          st.callbacks.map (fun p => if p.1 == sid then (sid, cs ++ [c]) else p) }
  | none => { st with callbacks := st.callbacks ++ [(sid, [c])] }

/-- Model of `ProgressCallback.unregister_session`: `del self.callbacks[session_id]`
guarded by a membership test (so it is total). -/
def unregister_session (st : PCState) (sid : String) : PCState :=
  { st with callbacks := st.callbacks.filter (fun p => !(p.1 == sid)) }

/-- One delivery attempt per registered callback, in list (insertion) order.
The source wraps each invocation in `try/except`, printing and continuing on
error, so a raising callback yields an attempt marked unsuccessful and the
loop proceeds to the next callback. -/
def deliverLoop : List Observer → List (Nat × Bool)
  | [] => []
  | c :: rest => (c.id, !c.fails) :: deliverLoop rest

/-- The fixed streaming throttle interval: 50ms (`0.05` event-loop seconds). -/
def throttleInterval : ℚ := 1 / 20

/-- Model of `ProgressCallback.notify_progress` at event-loop time `t`.  Returns the
new state together with the list of delivery attempts made (observer id,
whether the callback returned without raising).  A session with no
registered callbacks yields no delivery and no state change; a
`streaming`/`partial` event arriving within `throttleInterval` of the last
delivered one is dropped. -/
def notify_progress (st : PCState) (sid step status : String) (t : ℚ) :
    PCState × List (Nat × Bool) :=
  match pcLookup st sid with
  | none => (st, [])
  | some cs =>
      if step == "streaming" && status == "partial" then
        let key := sid ++ "_last_stream"
        match dictLookupQ st.lastUpdates key with
        | some last =>
            if t - last < throttleInterval then (st, [])
            else ({ st with lastUpdates := dictPutQ st.lastUpdates key t },
                  deliverLoop cs)
        | none =>
            ({ st with lastUpdates := dictPutQ st.lastUpdates key t },
             deliverLoop cs)
      else (st, deliverLoop cs)

-- ===============================
-- src/graph/workflow.py — EnhancedLangGraphMultiAgentSystem
-- ===============================

/-- The final LangGraph state the compiled workflow hands back
(`final_state` in `process_with_progress_tracking`). -/
structure FinalState where
  agent_response : String
  selected_agent : String
  metadata : List (String × String)
  tools_used : List String
  wikipedia_results : List String
  context_summary : String

/-- Outcome of `self.workflow.ainvoke(initial_state)`: a final state, an
exception with message `e`, or cancellation of the surrounding task (the
transport disconnecting mid-turn). -/
inductive WorkflowOutcome where
  | ok (s : FinalState)
  | err (e : String)
  | cancelled

/-- The result dict returned to the caller of
`process_with_progress_tracking`. -/
structure TurnResult where
  response : String
  agent_used : String
  metadata : List (String × String)
  tools_used : List String
  wikipedia_results : List String
  memory_context_summary : String
deriving DecidableEq

/-- The fixed user-safe fallback answer produced when the workflow raises. -/
def fallbackAnswer : String :=
  "I encountered an error processing your request. Please try again."

/-- Model of `EnhancedLangGraphMultiAgentSystem.process_with_progress_tracking`:
the `ProgressCallback` registry threaded explicitly: register the callback
(when given), run the workflow, build the result — the fixed fallback with
`metadata["error"]` set when the workflow raised, `none` when the task was
cancelled (the cancellation propagates to the caller) — and, in the
`finally` block, unregister the session on every exit path.  The `error`
progress notification of the except branch does not change the registry
(non-streaming notifies are state-preserving), so it is elided here. -/
def process_with_progress_tracking (st : PCState) (session_id : String)
    (progress_callback : Option Observer) (outcome : WorkflowOutcome) :
    Option TurnResult × PCState :=
  let st1 := match progress_callback with
    | some cb => register_callback st session_id cb
    | none => st
  let result : Option TurnResult := match outcome with
    | .ok s => some ⟨s.agent_response, s.selected_agent, s.metadata,
                     s.tools_used, s.wikipedia_results, s.context_summary⟩
    | .err e => some ⟨fallbackAnswer, "error", [("error", e)], [], [], ""⟩
    | .cancelled => none
  (result, unregister_session st1 session_id)

-- ===============================
-- Guardrail pipeline (C2) — spec-modelled
-- ===============================

/-- A stage of the orchestrator pipeline. -/
inductive Stage where
  | guardrail_in | memory_fetch | supervisor | agent | memory_update
deriving DecidableEq

/-- Terminal status of a turn. -/
inductive TurnStatus where
  | success | rejected | error
deriving DecidableEq

/-- Verdict of the input guardrail on the raw user message. -/
structure GuardrailVerdict where
  valid : Bool
  rejection_message : String

/-- Modelled from the spec: the guardrail-enabled pipeline
(`core/guardrails` and `graph/guardrails_nodes` are not under `src/`; only
`src/test_scripts/test_guardrails.py` references them, and the workflow
wiring in `src/graph/workflow.py` contains no guardrail node).  Per the
spec state machine and the test contract
(`should_continue_after_validation` maps a failed validation to `"end"`),
a rejected message routes straight to END with status `rejected`, skipping
Memory-Fetch, Router and Strategy; a valid message runs the full pipeline.
Returns the executed-stage list, the terminal status, and the answer. -/
def guardrailWorkflowRun (verdict : GuardrailVerdict) (answer : String) :
    List Stage × TurnStatus × String :=
  if verdict.valid then
    ([.guardrail_in, .memory_fetch, .supervisor, .agent, .memory_update],
     .success, answer)
  else
    ([.guardrail_in], .rejected, verdict.rejection_message)

-- ===============================
-- src/graph/supervisor.py — enhanced_supervisor_node
-- ===============================

/-- Whether `pat` occurs at the start of `l` (helper for Python `in`). -/
def startsWithL : List Char → List Char → Bool
  | [], _ => true
  | _ :: _, [] => false
  | a :: as, b :: bs => a == b && startsWithL as bs

/-- Whether `pat` occurs anywhere in `l` (helper for Python `in`). -/
def hasSubstrL (pat : List Char) : List Char → Bool
  | [] => pat.isEmpty
  | c :: rest => startsWithL pat (c :: rest) || hasSubstrL pat rest

/-- Python `needle in haystack` (substring containment). -/
def strContainsSub (hay needle : String) : Bool :=
  hasSubstrL needle.data hay.data

/-- Python `str.lower()` (ASCII case folds suffice for the strings the
source compares). -/
def strLower (s : String) : String := ⟨s.data.map Char.toLower⟩

/-- Whitespace characters stripped by Python `str.strip()`. -/
def isPyWS (c : Char) : Bool :=
  c == ' ' || c == '\t' || c == '\n' || c == '\r'

/-- Python `str.strip()`: drop whitespace from both ends. -/
def strStrip (s : String) : String :=
  ⟨((s.data.dropWhile isPyWS).reverse.dropWhile isPyWS).reverse⟩

/-- The routing prompt built by `enhanced_supervisor_node` for the AI-based
fallback branch; its exact wording only matters as input to the external
model, so the prompt is assembled from the same pieces as the source. -/
def routing_prompt (user_message context_summary : String) : String :=
  "Analyze this user request and route to the appropriate agent:\n\n" ++
  "User message: " ++ user_message ++ "\n" ++
  "Context: " ++ context_summary ++ "\n\n" ++
  "Available agents:\n" ++
  "1. rag_agent - For document search, retrieving information from uploaded files/images\n" ++
  "2. chatbot - For general conversation, personal questions, advice, casual chat\n\n" ++
  "Return ONLY: rag_agent OR chatbot"

/-- Outcome of the supervisor node: the selected agent plus the
`decision_reason` string it adds to the state (absent on the AI-routed
fallback path). -/
structure SupervisorOutcome where
  selected_agent : String
  decision_reason : Option String
deriving DecidableEq

/-- Model of `enhanced_supervisor_node`, with the external OpenAI chat-completion
call modelled as an oracle from the routing prompt to either the reply text
or a raised exception.  `chat_mode == "rag"` and `chat_mode == "general"`
are decided locally; every other mode falls back to the external call,
whose lower-cased, trimmed reply selects `rag_agent` iff it contains the
substring `"rag"`; an exception falls back to `chatbot`. -/
def enhanced_supervisor_decide (chat_mode user_message context_summary : String)
    (oracle : String → Except String String) : SupervisorOutcome :=
  if chat_mode == "rag" then
    ⟨"rag_agent", some "User selected \x27My Resources\x27 mode"⟩
  else if chat_mode == "general" then
    ⟨"chatbot", some "User selected \x27General\x27 mode"⟩
  else
    match oracle (routing_prompt user_message context_summary) with
    | .ok resp =>
        let agent_choice := strLower (strStrip resp)
        if strContainsSub agent_choice "rag" then ⟨"rag_agent", none⟩
        else ⟨"chatbot", none⟩
    | .error _ => ⟨"chatbot", none⟩

/-- Formalised from the spec claim text, NOT from the source (the source has
no keyword scan): a message matches the claimed document/file/search-intent
keyword set when it contains one of these substrings. -/
def specKeywordMatch (msg : String) : Bool :=
  strContainsSub msg "document" || strContainsSub msg "file" ||
  strContainsSub msg "search"

-- ===============================
-- src/memory/mem_agent.py — MemoryAgent
-- ===============================

/-- The external stores a `MemoryAgent` writes to: the in-memory short-term
buffer, the Mongo `messages_history` collection, the Qdrant long-term store
(documents kept as their `page_content`), and the Mongo `user_facts` dict. -/
structure MemoryStores where
  short_term : List (String × String)
  messages : List (String × String)
  long_term : List String
  facts : List (String × String)
deriving DecidableEq

/-- Model of `MemoryAgent.extract_facts`, with the external GPT call (and the JSON
parse of its reply) as an oracle: the whole body is wrapped in
`try/except`, so a raised exception is swallowed and an empty dict
returned. -/
def extract_facts (oracle : Except String (List (String × String))) :
    List (String × String) :=
  match oracle with
  | .ok d => d
  | .error _ => []

/-- Model of `MemoryAgent.update`: append the turn to the short-term buffer (trimmed
to `short_term_window * 2` entries), persist both messages to history,
write the combined turn into the long-term store, then merge freshly
extracted facts over the existing ones (`\x7b**existing, **new\x7d`) and store
the merge when non-empty. -/
def memoryUpdate (window : Nat) (s : MemoryStores)
    (user_message assistant_message : String)
    (factsOracle : Except String (List (String × String))) : MemoryStores :=
  let st1 := s.short_term ++
    [("user", user_message), ("assistant", assistant_message)]
  let st2 := if st1.length > window * 2
    then st1.drop (st1.length - window * 2) else st1
  let msgs := s.messages ++
    [("user", user_message), ("assistant", assistant_message)]
  let combined := "User: " ++ user_message ++ "\nAssistant: " ++ assistant_message
  let lt := s.long_term ++ [combined]
  let existing := s.facts
  let newFacts := extract_facts factsOracle
  let merged := dictMerge existing newFacts
  let facts2 := if merged.isEmpty then s.facts else merged
  { short_term := st2, messages := msgs, long_term := lt, facts := facts2 }

/-- The slice of the LangGraph state `enhanced_memory_update_node` touches. -/
structure NodeState where
  user_message : String
  agent_response : String
  metadata : List (String × String)
deriving DecidableEq

/-- Model of `enhanced_memory_update_node` (src/graph/memory_nodes.py): calls
`memory_agent.update` when an agent is present — its outcome (normal return
or raised exception) is the `updateResult` parameter — and records the
outcome in `metadata` only; the answer field is never written. -/
def enhanced_memory_update_node (st : NodeState) (hasAgent : Bool)
    (updateResult : Except String Unit) : NodeState :=
  if hasAgent then
    match updateResult with
    | .ok _ => { st with metadata := st.metadata ++ [("memory_updated", "True")] }
    | .error e => { st with metadata := st.metadata ++ [("memory_update_error", e)] }
  else { st with metadata := st.metadata ++ [("memory_updated", "False")] }

-- ===============================
-- src/graph/chat_node.py — chatbot_agent_node
-- ===============================

/-- A tool call requested by the model. -/
structure ToolCall where
  name : String
  args : String
  call_id : String

/-- A model reply: text content plus any requested tool calls. -/
structure LLMResponse where
  content : String
  tool_calls : List ToolCall

/-- The external capabilities `chatbot_agent_node` consumes, each fallible:
`first` is `llm_with_tools.invoke(messages)` (the only call made with
tools bound); `streamAfterTools` / `invokeAfterTools` are the follow-up
`llm.stream` / `llm.invoke` after tool results are appended;
`streamDirect` is the `llm.stream` of the no-tools branch — all three made
on `llm` WITHOUT tools bound, and only their text content is read.
`runTool` executes one named tool on its arguments. -/
structure ChatOracle where
  first : Except String LLMResponse
  streamAfterTools : Except String LLMResponse
  invokeAfterTools : Except String LLMResponse
  streamDirect : Except String LLMResponse
  runTool : String → String → Except String String

/-- The names in `all_chatbot_tools` (the `tool_map` keys). -/
def knownTools : List String :=
  ["search_wikipedia", "get_wikipedia_page", "search_web", "search_news",
   "calculate", "convert_units", "get_current_datetime",
   "calculate_date_difference", "add_days_to_date", "get_day_of_week",
   "convert_timezone", "get_calendar_month", "time_until_date",
   "get_calendar_events", "create_calendar_event"]

/-- One tool invocation from the per-call loop: unknown names yield the
`Unknown tool` string, a raising tool is caught and replaced by the
`Error using` string — either way the loop continues. -/
def runOneTool (o : ChatOracle) (tc : ToolCall) : String :=
  if knownTools.contains tc.name then
    match o.runTool tc.name tc.args with
    | .ok r => r
    | .error e => "Error using " ++ tc.name ++ ": " ++ e
  else "Unknown tool: " ++ tc.name

/-- The calendar approval/rejection trigger test of `chatbot_agent_node`
(`"approve" in msg or "reject" in msg or msg in ["yes", "ok", "confirm"]`
on the lower-cased message). -/
def approvalRequested (user_message : String) : Bool :=
  let m := strLower user_message
  strContainsSub m "approve" || strContainsSub m "reject" ||
    (m == "yes" || m == "ok" || m == "confirm")

/-- What the node computed: the answer, the tool bookkeeping returned in
the state, the names of the tools actually invoked (in invocation order),
and how many rounds of tool execution ran. -/
structure ChatNodeResult where
  agent_response : String
  tools_used : List String
  tool_results : List (String × String × String)
  invoked : List String
  tool_rounds : Nat
  errored : Bool
deriving DecidableEq

/-- The except-branch result of `chatbot_agent_node`: the apology answer;
`invoked`/`tool_rounds` record the tool executions that happened before the
exception was raised. -/
def chatErrResult (invoked : List String) (rounds : Nat) : ChatNodeResult :=
  { agent_response := "I apologize, but I encountered an error. Please try again.",
    tools_used := [], tool_results := [], invoked := invoked,
    tool_rounds := rounds, errored := true }

/-- Model of `chatbot_agent_node`, message-handling core.  `hasProposal` models
whether a calendar proposal id was resolved (explicitly in the message or
from `calendar_tool.get_pending_actions()`), and `approvalAnswer` the text
of the approval/rejection branch — that branch performs a calendar action,
never a `tool_map` invocation.  Otherwise: one `invoke` with tools bound;
if it requests tool calls, each is executed exactly once in order, and the
final text then comes from a toolless `llm.stream` (or toolless
`llm.invoke` when streaming yielded nothing); with no tool calls the text
is streamed directly (falling back to the first reply's own content).  Any
uncaught exception produces the apology result. -/
def chatbot_agent_run (user_message : String) (hasProposal : Bool)
    (approvalAnswer : String) (o : ChatOracle) : ChatNodeResult :=
  if approvalRequested user_message && hasProposal then
    { agent_response := approvalAnswer, tools_used := [], tool_results := [],
      invoked := [], tool_rounds := 0, errored := false }
  else
    match o.first with
    | .error _ => chatErrResult [] 0
    | .ok response =>
        if response.tool_calls.isEmpty then
          match o.streamDirect with
          | .error _ => chatErrResult [] 0
          | .ok sd =>
              { agent_response :=
                  if sd.content == "" then response.content else sd.content,
                tools_used := [], tool_results := [], invoked := [],
                tool_rounds := 0, errored := false }
        else
          let names := response.tool_calls.map (·.name)
          let results := response.tool_calls.map
            (fun tc => (tc.name, tc.args, runOneTool o tc))
          match o.streamAfterTools with
          | .error _ => chatErrResult names 1
          | .ok sa =>
              if sa.content == "" then
                match o.invokeAfterTools with
                | .error _ => chatErrResult names 1
                | .ok iv =>
                    { agent_response := iv.content, tools_used := names,
                      tool_results := results, invoked := names,
                      tool_rounds := 1, errored := false }
              else
                { agent_response := sa.content, tools_used := names,
                  tool_results := results, invoked := names,
                  tool_rounds := 1, errored := false }

/-- Replace the tool-call requests of a model reply, keeping its content:
used to state that the follow-up generations cannot cause tool execution. -/
def withToolCalls (r : Except String LLMResponse) (tcs : List ToolCall) :
    Except String LLMResponse :=
  match r with
  | .ok resp => .ok { resp with tool_calls := tcs }
  | .error e => .error e

-- ===============================
-- src/main.py — DatabaseAwareMultiAgentManager.get_or_create_system
-- ===============================

/-- The manager's `langgraph_systems` dict, with orchestrator instances
identified by a creation counter (identity-equal ⟺ equal id; `nextId` is
fresh). -/
structure ManagerState where
  systems : List (String × Nat)
  nextId : Nat
deriving DecidableEq

/-- The f-string key `f"\x7buser_id\x7d:\x7bsession_id\x7d"`. -/
def system_key (user_id session_id : String) : String :=
  user_id ++ ":" ++ session_id

/-- Model of `get_or_create_system`: return the cached instance when the key is
present, else create a fresh instance, cache it, and return it.  No method
of the manager ever removes an entry from `langgraph_systems`. -/
def get_or_create_system (m : ManagerState) (user_id session_id : String) :
    Nat × ManagerState :=
  let key := system_key user_id session_id
  match (m.systems.find? (fun p => p.1 == key)).map (·.2) with
  | some sys => (sys, m)
  | none => (m.nextId, ⟨m.systems ++ [(key, m.nextId)], m.nextId + 1⟩)

-- ===============================
-- Helper lemmas
-- ===============================

theorem find?_append_of_none {α : Type} (p : α → Bool) (l1 l2 : List α)
    (h : l1.find? p = none) : (l1 ++ l2).find? p = l2.find? p := by
  induction l1 with
  | nil => simp
  | cons x xs ih =>
      rw [List.cons_append]
      cases hx : p x with
      | true =>
          rw [List.find?_cons_of_pos _ hx] at h
          cases h
      | false =>
          rw [List.find?_cons_of_neg _ (by simp [hx])] at h
          rw [List.find?_cons_of_neg _ (by simp [hx])]
          exact ih h

theorem pcLookup_unregister (st : PCState) (sid : String) :
    pcLookup (unregister_session st sid) sid = none := by
  unfold pcLookup unregister_session
  have h : List.find? (fun p => p.1 == sid)
      (List.filter (fun p => !(p.1 == sid)) st.callbacks) = none := by
    rw [List.find?_eq_none]
    intro x hx
    have := (List.mem_filter.mp hx).2
    simpa using this
  simp only [h, Option.map_none']

theorem notify_progress_not_registered (st : PCState) (sid step status : String)
    (t : ℚ) (h : pcLookup st sid = none) :
    notify_progress st sid step status t = (st, []) := by
  unfold notify_progress
  rw [h]

-- ===============================
-- Claim theorems
-- ===============================

/-- C1: every turn through `process_with_progress_tracking` yields a
well-formed result dict and never raises to its caller: a successful
workflow run is repackaged field by field, and a workflow exception is
converted into a result whose answer is exactly the fixed fallback string
with the error text recorded in the metadata. -/
theorem c1_total_result_and_error_fallback :
    ∀ (st : PCState) (sid : String) (cb : Option Observer),
      (∀ e, (process_with_progress_tracking st sid cb (.err e)).1 =
        some ⟨fallbackAnswer, "error", [("error", e)], [], [], ""⟩) ∧
      (∀ s, (process_with_progress_tracking st sid cb (.ok s)).1 =
        some ⟨s.agent_response, s.selected_agent, s.metadata, s.tools_used,
              s.wikipedia_results, s.context_summary⟩) := by
  intro st sid cb
  exact ⟨fun _ => rfl, fun _ => rfl⟩

/-- C6: for every turn run with a progress callback, the session's callback
registration is released on every exit path — normal completion, workflow
exception, and cancellation — so afterwards no observer remains registered
for the session and a subsequent notify on it is a safe no-op. -/
theorem c6_callback_released_on_every_exit :
    ∀ (st : PCState) (sid : String) (c : Observer) (outcome : WorkflowOutcome),
      pcLookup (process_with_progress_tracking st sid (some c) outcome).2 sid
        = none ∧
      ∀ (step status : String) (t : ℚ),
        notify_progress (process_with_progress_tracking st sid (some c) outcome).2
          sid step status t =
        ((process_with_progress_tracking st sid (some c) outcome).2, []) := by
  intro st sid c outcome
  have h : pcLookup (process_with_progress_tracking st sid (some c) outcome).2 sid
      = none := pcLookup_unregister _ sid
  exact ⟨h, fun step status t => notify_progress_not_registered _ _ _ _ _ h⟩

/-- C2: in the guardrail-enabled pipeline (modelled from the spec, see
`guardrailWorkflowRun`), a message the input guardrail rejects short-circuits
the turn: the Memory-Fetch, Router (supervisor) and Strategy (agent) stages
do not execute and the terminal status is `rejected`. -/
theorem c2_guardrail_short_circuit :
    ∀ (v : GuardrailVerdict) (ans : String), v.valid = false →
      Stage.memory_fetch ∉ (guardrailWorkflowRun v ans).1 ∧
      Stage.supervisor ∉ (guardrailWorkflowRun v ans).1 ∧
      Stage.agent ∉ (guardrailWorkflowRun v ans).1 ∧
      (guardrailWorkflowRun v ans).2.1 = TurnStatus.rejected := by
  intro v ans h
  unfold guardrailWorkflowRun
  rw [h]
  refine ⟨?_, ?_, ?_, rfl⟩ <;> simp

theorem c2_guardrail_short_circuit_witness :
    (GuardrailVerdict.mk false "Input validation failed").valid = false ∧
    (Stage.memory_fetch ∉
        (guardrailWorkflowRun ⟨false, "Input validation failed"⟩ "x").1 ∧
      Stage.supervisor ∉
        (guardrailWorkflowRun ⟨false, "Input validation failed"⟩ "x").1 ∧
      Stage.agent ∉
        (guardrailWorkflowRun ⟨false, "Input validation failed"⟩ "x").1 ∧
      (guardrailWorkflowRun ⟨false, "Input validation failed"⟩ "x").2.1 =
        TurnStatus.rejected) :=
  ⟨rfl, c2_guardrail_short_circuit ⟨false, "Input validation failed"⟩ "x" rfl⟩

theorem system_key_ne_of_ne (u s s' : String) (h : s ≠ s') :
    system_key u s ≠ system_key u s' := by
  intro he
  apply h
  unfold system_key at he
  have hd := congrArg String.data he
  simp only [String.data_append] at hd
  exact String.ext (List.append_cancel_left hd)

theorem get_or_create_system_grows (m : ManagerState) (uu ss : String) :
    ∃ tail, (get_or_create_system m uu ss).2.systems = m.systems ++ tail := by
  rcases hf : (m.systems.find? (fun p => p.1 == system_key uu ss)).map (·.2)
    with _ | sys
  · refine ⟨[(system_key uu ss, m.nextId)], ?_⟩
    simp only [get_or_create_system]
    rw [hf]
  · refine ⟨[], ?_⟩
    simp only [get_or_create_system]
    rw [hf]
    simp

/-- C9: starting from an empty registry, the first turn for (user, thread)
creates the orchestrator instance lazily and caches it under the
`user:thread` key; a second call with the same pair returns the
identity-equal instance and leaves the registry untouched; a call with a
different thread id creates and uses a distinct instance appended to the
registry; and `get_or_create_system` only ever grows the registry. -/
theorem c9_session_registry_reuse :
    ∀ (u s s' : String), s ≠ s' →
      (get_or_create_system ⟨[], 0⟩ u s =
        (0, ⟨[(system_key u s, 0)], 1⟩)) ∧
      (get_or_create_system ⟨[(system_key u s, 0)], 1⟩ u s =
        (0, ⟨[(system_key u s, 0)], 1⟩)) ∧
      (get_or_create_system ⟨[(system_key u s, 0)], 1⟩ u s' =
        (1, ⟨[(system_key u s, 0), (system_key u s', 1)], 2⟩)) ∧
      (get_or_create_system ⟨[(system_key u s, 0)], 1⟩ u s').1 ≠
        (get_or_create_system ⟨[], 0⟩ u s).1 ∧
      ∀ (m : ManagerState) (uu ss : String),
        ∃ tail, (get_or_create_system m uu ss).2.systems = m.systems ++ tail := by
  intro u s s' hne
  have hself : (system_key u s == system_key u s) = true := beq_self_eq_true _
  have hother : ¬ (((system_key u s, (0 : Nat)).1 == system_key u s') = true) := by
    simpa using system_key_ne_of_ne u s s' hne
  have hfind2 : List.find? (fun p => p.1 == system_key u s)
      ([(system_key u s, 0)] : List (String × Nat)) = some (system_key u s, 0) :=
    List.find?_cons_of_pos _ hself
  have hfind3 : List.find? (fun p => p.1 == system_key u s')
      ([(system_key u s, 0)] : List (String × Nat)) = none := by
    rw [@List.find?_cons_of_neg (String × Nat) (fun p => p.1 == system_key u s')
        (system_key u s, 0) [] hother, List.find?_nil]
  have h1 : get_or_create_system ⟨[], 0⟩ u s =
      (0, ⟨[(system_key u s, 0)], 1⟩) := rfl
  have h2 : get_or_create_system (⟨[(system_key u s, 0)], 1⟩ : ManagerState) u s =
      (0, ⟨[(system_key u s, 0)], 1⟩) := by
    simp only [get_or_create_system]
    rw [hfind2]
    rfl
  have h3 : get_or_create_system (⟨[(system_key u s, 0)], 1⟩ : ManagerState) u s' =
      (1, ⟨[(system_key u s, 0), (system_key u s', 1)], 2⟩) := by
    simp only [get_or_create_system]
    rw [hfind3]
    rfl
  refine ⟨h1, h2, h3, ?_, fun m uu ss => get_or_create_system_grows m uu ss⟩
  rw [h1, h3]
  simp

theorem c9_session_registry_reuse_witness :
    ("t1" : String) ≠ "t2" ∧
    (get_or_create_system ⟨[(system_key "alice" "t1", 0)], 1⟩ "alice" "t1" =
      (0, ⟨[(system_key "alice" "t1", 0)], 1⟩)) ∧
    (get_or_create_system ⟨[(system_key "alice" "t1", 0)], 1⟩ "alice" "t2").1 ≠
      (get_or_create_system ⟨[], 0⟩ "alice" "t1").1 := by
  have h := c9_session_registry_reuse "alice" "t1" "t2" (by decide)
  exact ⟨by decide, h.2.1, h.2.2.2.1⟩

theorem c3_keyword_routing_counterexample :
    specKeywordMatch "search my documents for the onboarding policy" = true ∧
    (enhanced_supervisor_decide "general"
        "search my documents for the onboarding policy" "None"
        (fun _ => .ok "rag_agent")).selected_agent = "chatbot" ∧
    ("chatbot" : String) ≠ "rag_agent" := by
  refine ⟨by decide, rfl, by decide⟩

/-- C3 (amended): routing precedence is mode-only, first match wins —
session mode `rag` selects the grounded (RAG) strategy, session mode
`general` selects the open-conversation (chatbot) strategy regardless of
message content (no keyword scan exists), and any other mode defers to an
external LLM routing call whose lower-cased, trimmed reply selects the RAG
agent iff it contains `rag`, falling back to the chatbot when the call
raises. -/
theorem c3_mode_precedence :
    ∀ (msg ctx : String) (oracle : String → Except String String),
      (enhanced_supervisor_decide "rag" msg ctx oracle).selected_agent =
        "rag_agent" ∧
      (enhanced_supervisor_decide "general" msg ctx oracle).selected_agent =
        "chatbot" ∧
      ∀ mode, mode ≠ "rag" → mode ≠ "general" →
        enhanced_supervisor_decide mode msg ctx oracle =
          (match oracle (routing_prompt msg ctx) with
           | .ok resp =>
               if strContainsSub (strLower (strStrip resp)) "rag"
               then ⟨"rag_agent", none⟩ else ⟨"chatbot", none⟩
           | .error _ => ⟨"chatbot", none⟩) := by
  intro msg ctx oracle
  refine ⟨rfl, rfl, ?_⟩
  intro mode h1 h2
  have e1 : (mode == "rag") = false := beq_eq_false_iff_ne.mpr h1
  have e2 : (mode == "general") = false := beq_eq_false_iff_ne.mpr h2
  simp only [enhanced_supervisor_decide, e1, e2, Bool.false_eq_true, if_false]

theorem c3_mode_precedence_witness :
    (enhanced_supervisor_decide "rag" "hi" "None"
        (fun _ => .error "APIError")).selected_agent = "rag_agent" ∧
    ("auto" : String) ≠ "rag" ∧ ("auto" : String) ≠ "general" ∧
    (enhanced_supervisor_decide "auto" "hi" "None"
        (fun _ => .error "APIError")).selected_agent = "chatbot" := by
  have h := c3_mode_precedence "hi" "None" (fun _ => .error "APIError")
  refine ⟨h.1, by decide, by decide, ?_⟩
  rw [h.2.2 "auto" (by decide) (by decide)]

theorem c4_routing_purity_counterexample :
    enhanced_supervisor_decide "auto" "hello" "None" (fun _ => .ok "rag_agent") ≠
      enhanced_supervisor_decide "auto" "hello" "None" (fun _ => .ok "chatbot") := by
  have h1 : enhanced_supervisor_decide "auto" "hello" "None"
      (fun _ => .ok "rag_agent") = ⟨"rag_agent", none⟩ := by decide
  have h2 : enhanced_supervisor_decide "auto" "hello" "None"
      (fun _ => .ok "chatbot") = ⟨"chatbot", none⟩ := by decide
  rw [h1, h2]
  decide

/-- C4 (amended): the supervisor decision is deterministic and pure — with
a fixed justification string — exactly for the explicitly handled session
modes `rag` and `general`, where it is independent of the external routing
oracle; for any other mode the selection is taken from the external LLM
call, so identical (mode, message) inputs can yield different selections
when that call answers differently. -/
theorem c4_routing_determinism_for_explicit_modes :
    ∀ (msg ctx : String) (o o' : String → Except String String),
      enhanced_supervisor_decide "rag" msg ctx o =
        enhanced_supervisor_decide "rag" msg ctx o' ∧
      enhanced_supervisor_decide "general" msg ctx o =
        enhanced_supervisor_decide "general" msg ctx o' ∧
      (enhanced_supervisor_decide "rag" msg ctx o).decision_reason =
        some "User selected \x27My Resources\x27 mode" ∧
      (enhanced_supervisor_decide "general" msg ctx o).decision_reason =
        some "User selected \x27General\x27 mode" := by
  intro msg ctx o o'
  exact ⟨rfl, rfl, rfl, rfl⟩

theorem dictLookup_append_of_none (l1 l2 : List (String × String)) (k : String)
    (h : l1.find? (fun p => p.1 == k) = none) :
    dictLookup (l1 ++ l2) k = dictLookup l2 k := by
  unfold dictLookup
  rw [find?_append_of_none _ _ _ h]

theorem dictLookup_merge_right (a b : List (String × String)) (k : String)
    (v : String) (h : dictLookup b k = some v) :
    dictLookup (dictMerge a b) k = some v := by
  unfold dictMerge
  have hfa : (a.filter (fun p => (dictLookup b p.1).isNone)).find?
      (fun p => p.1 == k) = none := by
    rw [List.find?_eq_none]
    intro x hx hk
    rcases List.mem_filter.mp hx with ⟨-, hxb⟩
    have hx1 : x.1 = k := by simpa using hk
    rw [hx1, h] at hxb
    simp at hxb
  rw [dictLookup_append_of_none _ _ _ hfa]
  exact h

/-- C7: the two persist sub-operations fail independently — when the
fact-extraction call raises, the exception is swallowed into an empty fact
dict and the long-term (semantic store) write has still executed; the
memory-update node never touches the answer field whatever the persist
outcome; and on key conflict during the fact merge the newly extracted
value wins (last-write-wins per key). -/
theorem c7_persist_independence :
    (∀ (w : Nat) (s : MemoryStores) (u a e : String),
      (memoryUpdate w s u a (.error e)).long_term =
        s.long_term ++ ["User: " ++ u ++ "\nAssistant: " ++ a]) ∧
    (∀ e : String, extract_facts (.error e) = []) ∧
    (∀ (st : NodeState) (b : Bool) (r : Except String Unit),
      (enhanced_memory_update_node st b r).agent_response = st.agent_response) ∧
    (∀ (a b : List (String × String)) (k v : String),
      dictLookup b k = some v → dictLookup (dictMerge a b) k = some v) := by
  refine ⟨fun w s u a e => rfl, fun e => rfl, ?_, dictLookup_merge_right⟩
  intro st b r
  cases b <;> cases r <;> rfl

theorem c7_persist_independence_witness :
    (memoryUpdate 6 ⟨[], [], [], [("name", "alice")]⟩ "hi" "hello"
        (.error "ExtractionTimeout")).long_term =
      ["User: hi\nAssistant: hello"] ∧
    dictLookup [("name", "bob"), ("city", "paris")] "name" = some "bob" ∧
    dictLookup (dictMerge [("name", "alice")]
        [("name", "bob"), ("city", "paris")]) "name" = some "bob" := by
  refine ⟨?_, rfl, ?_⟩
  · have h := c7_persist_independence.1 6
      ⟨[], [], [], [("name", "alice")]⟩ "hi" "hello" "ExtractionTimeout"
    simpa using h
  · exact c7_persist_independence.2.2.2 [("name", "alice")]
      [("name", "bob"), ("city", "paris")] "name" "bob" rfl

/-- The tool calls requested by the first (tools-bound) model reply. -/
def firstToolNames (o : ChatOracle) : List String :=
  match o.first with
  | .ok r => r.tool_calls.map (·.name)
  | .error _ => []

theorem chatbot_invoked_eq (msg : String) (hp : Bool) (aa : String)
    (o : ChatOracle) :
    (chatbot_agent_run msg hp aa o).invoked =
      (if approvalRequested msg && hp then []
       else match o.first with
            | .error _ => []
            | .ok r => if r.tool_calls.isEmpty then []
                       else r.tool_calls.map (·.name)) := by
  unfold chatbot_agent_run
  cases happ : approvalRequested msg && hp
  · cases hf : o.first with
    | error e => simp [happ, chatErrResult]
    | ok r =>
        cases hemp : r.tool_calls.isEmpty
        · cases hsat : o.streamAfterTools with
          | error e => simp [happ, hemp, chatErrResult]
          | ok sa =>
              cases hc : sa.content == ""
              · simp [happ, hemp, hc]
              · cases hiv : o.invokeAfterTools with
                | error e => simp [happ, hemp, hc, chatErrResult]
                | ok iv => simp [happ, hemp, hc]
        · cases hsd : o.streamDirect with
          | error e => simp [happ, hemp, chatErrResult]
          | ok sd => simp [happ, hemp]
  · simp [happ]

theorem chatbot_rounds_eq (msg : String) (hp : Bool) (aa : String)
    (o : ChatOracle) :
    (chatbot_agent_run msg hp aa o).tool_rounds =
      (if approvalRequested msg && hp then 0
       else match o.first with
            | .error _ => 0
            | .ok r => if r.tool_calls.isEmpty then 0 else 1) := by
  unfold chatbot_agent_run
  cases happ : approvalRequested msg && hp
  · cases hf : o.first with
    | error e => simp [happ, chatErrResult]
    | ok r =>
        cases hemp : r.tool_calls.isEmpty
        · cases hsat : o.streamAfterTools with
          | error e => simp [happ, hemp, chatErrResult]
          | ok sa =>
              cases hc : sa.content == ""
              · simp [happ, hemp, hc]
              · cases hiv : o.invokeAfterTools with
                | error e => simp [happ, hemp, hc, chatErrResult]
                | ok iv => simp [happ, hemp, hc]
        · cases hsd : o.streamDirect with
          | error e => simp [happ, hemp, chatErrResult]
          | ok sd => simp [happ, hemp]
  · simp [happ]

/-- C8: the open-conversation strategy performs at most one round of tool
execution per turn; the tools it invokes all come from the requests of the
single tools-bound model call; and changing the tool requests of the
follow-up (toolless) generations changes nothing about which tools run, so
no recursive tool-calling is possible on any input. -/
theorem c8_single_tool_round :
    ∀ (msg : String) (hp : Bool) (aa : String) (o : ChatOracle)
      (tcs : List ToolCall),
      (chatbot_agent_run msg hp aa o).tool_rounds ≤ 1 ∧
      (chatbot_agent_run msg hp aa
          { o with streamAfterTools := withToolCalls o.streamAfterTools tcs,
                   invokeAfterTools := withToolCalls o.invokeAfterTools tcs,
                   streamDirect := withToolCalls o.streamDirect tcs }).invoked =
        (chatbot_agent_run msg hp aa o).invoked ∧
      (∀ n, n ∈ (chatbot_agent_run msg hp aa o).invoked →
        n ∈ firstToolNames o) := by
  intro msg hp aa o tcs
  refine ⟨?_, ?_, ?_⟩
  · rw [chatbot_rounds_eq]
    cases happ : approvalRequested msg && hp
    · cases hf : o.first with
      | error e => simp [happ]
      | ok r => cases hemp : r.tool_calls.isEmpty <;> simp [happ, hemp]
    · simp [happ]
  · rw [chatbot_invoked_eq, chatbot_invoked_eq]
  · intro n hn
    rw [chatbot_invoked_eq] at hn
    unfold firstToolNames
    cases happ : approvalRequested msg && hp
    · cases hf : o.first with
      | error e => rw [hf] at hn; simp [happ] at hn
      | ok r =>
          rw [hf] at hn
          cases hemp : r.tool_calls.isEmpty
          · simp only [happ, Bool.false_eq_true, if_false, hemp] at hn
            exact hn
          · simp [happ, hemp] at hn
    · simp [happ] at hn

theorem c8_single_tool_round_witness :
    (chatbot_agent_run "What is 2 plus 2?" false ""
        { first := .ok ⟨"", [⟨"calculate", "2+2", "call_1"⟩,
            ⟨"mystery_tool", "x", "call_2"⟩]⟩,
          streamAfterTools := .ok ⟨"The answer is 4.", [⟨"calculate", "4+4", "c3"⟩]⟩,
          invokeAfterTools := .ok ⟨"The answer is 4.", []⟩,
          streamDirect := .ok ⟨"", []⟩,
          runTool := fun _ _ => .ok "4" }).tool_rounds ≤ 1 ∧
    ("calculate" : String) ∈ (chatbot_agent_run "What is 2 plus 2?" false ""
        { first := .ok ⟨"", [⟨"calculate", "2+2", "call_1"⟩,
            ⟨"mystery_tool", "x", "call_2"⟩]⟩,
          streamAfterTools := .ok ⟨"The answer is 4.", [⟨"calculate", "4+4", "c3"⟩]⟩,
          invokeAfterTools := .ok ⟨"The answer is 4.", []⟩,
          streamDirect := .ok ⟨"", []⟩,
          runTool := fun _ _ => .ok "4" }).invoked ∧
    ("calculate" : String) ∈ firstToolNames
        { first := .ok ⟨"", [⟨"calculate", "2+2", "call_1"⟩,
            ⟨"mystery_tool", "x", "call_2"⟩]⟩,
          streamAfterTools := .ok ⟨"The answer is 4.", [⟨"calculate", "4+4", "c3"⟩]⟩,
          invokeAfterTools := .ok ⟨"The answer is 4.", []⟩,
          streamDirect := .ok ⟨"", []⟩,
          runTool := fun _ _ => .ok "4" } := by
  have h := c8_single_tool_round "What is 2 plus 2?" false ""
      { first := .ok ⟨"", [⟨"calculate", "2+2", "call_1"⟩,
          ⟨"mystery_tool", "x", "call_2"⟩]⟩,
        streamAfterTools := .ok ⟨"The answer is 4.", [⟨"calculate", "4+4", "c3"⟩]⟩,
        invokeAfterTools := .ok ⟨"The answer is 4.", []⟩,
        streamDirect := .ok ⟨"", []⟩,
        runTool := fun _ _ => .ok "4" } []
  refine ⟨h.1, ?_, by simp [firstToolNames]⟩
  exact h.2.2 "calculate" (by simp [chatbot_invoked_eq, approvalRequested,
    strLower, strContainsSub])

theorem find?_map_put (d : List (String × ℚ)) (k : String) (v : ℚ)
    (h : (d.find? (fun p => p.1 == k)).isSome = true) :
    (d.map (fun p => if p.1 == k then (k, v) else p)).find? (fun p => p.1 == k)
      = some (k, v) := by
  induction d with
  | nil => simp at h
  | cons x xs ih =>
      cases hx : x.1 == k
      · have hxs : (xs.find? (fun p => p.1 == k)).isSome = true := by
          rw [List.find?_cons_of_neg _ (by simp [hx])] at h
          exact h
        simp only [List.map_cons, hx, Bool.false_eq_true, if_false]
        rw [List.find?_cons_of_neg _ (by simp [hx])]
        exact ih hxs
      · simp only [List.map_cons, hx, if_true]
        exact List.find?_cons_of_pos _ (by simp)

theorem dictLookupQ_dictPutQ (d : List (String × ℚ)) (k : String) (v : ℚ) :
    dictLookupQ (dictPutQ d k v) k = some v := by
  unfold dictPutQ
  cases hf : d.find? (fun p => p.1 == k) with
  | none =>
      simp only [hf, Option.isSome_none, Bool.false_eq_true, if_false]
      unfold dictLookupQ
      rw [find?_append_of_none _ _ _ hf]
      simp
  | some x =>
      simp only [hf, Option.isSome_some, if_true]
      unfold dictLookupQ
      rw [find?_map_put d k v (by rw [hf]; rfl)]
      rfl

/-- The closed streaming/partial condition evaluates to `true`. -/
theorem streaming_partial_cond :
    ((("streaming" : String) == "streaming") &&
      (("partial" : String) == "partial")) = true := rfl

theorem notify_nonpartial_eq (st : PCState) (sid step status : String) (t : ℚ)
    (cs : List Observer) (hcs : pcLookup st sid = some cs)
    (hcond : ((step == "streaming") && (status == "partial")) = false) :
    notify_progress st sid step status t = (st, deliverLoop cs) := by
  unfold notify_progress
  rw [hcs]
  dsimp only
  rw [hcond]
  rfl

theorem notify_streaming_throttled (st : PCState) (sid : String) (t last : ℚ)
    (cs : List Observer) (hcs : pcLookup st sid = some cs)
    (hlast : dictLookupQ st.lastUpdates (sid ++ "_last_stream") = some last)
    (hlt : t - last < throttleInterval) :
    notify_progress st sid "streaming" "partial" t = (st, []) := by
  unfold notify_progress
  rw [hcs]
  dsimp only
  rw [streaming_partial_cond]
  simp only [eq_self_iff_true, if_true]
  rw [hlast]
  dsimp only
  rw [if_pos hlt]

theorem notify_streaming_delivered (st : PCState) (sid : String) (t : ℚ)
    (cs : List Observer) (hcs : pcLookup st sid = some cs)
    (hne : (notify_progress st sid "streaming" "partial" t).2 ≠ []) :
    pcLookup (notify_progress st sid "streaming" "partial" t).1 sid = some cs ∧
    dictLookupQ (notify_progress st sid "streaming" "partial" t).1.lastUpdates
      (sid ++ "_last_stream") = some t := by
  unfold notify_progress at hne ⊢
  rw [hcs] at hne ⊢
  dsimp only at hne ⊢
  rw [streaming_partial_cond] at hne ⊢
  simp only [eq_self_iff_true, if_true] at hne ⊢
  cases hlast : dictLookupQ st.lastUpdates (sid ++ "_last_stream") with
  | none =>
      dsimp only
      exact ⟨hcs, dictLookupQ_dictPutQ _ _ _⟩
  | some last =>
      rw [hlast] at hne
      dsimp only at hne ⊢
      by_cases hlt : t - last < throttleInterval
      · rw [if_pos hlt] at hne
        simp at hne
      · rw [if_neg hlt]
        exact ⟨hcs, dictLookupQ_dictPutQ _ _ _⟩

/-- C5 (amended): the Progress Notifier delivers at most one
`streaming`/`partial` notification per session per 50ms interval — after a
delivered one at time `t`, any further `streaming`/`partial` notify within
`throttleInterval` of `t` delivers nothing — while every other stage/status
combination is delivered unthrottled and in full.  (A final partial-output
call falling inside the window is dropped like any other: its content
reaches the caller only through the returned turn result, not through the
notifier.) -/
theorem c5_streaming_throttle :
    (∀ (st : PCState) (sid : String) (t tp : ℚ) (cs : List Observer),
      pcLookup st sid = some cs →
      (notify_progress st sid "streaming" "partial" t).2 ≠ [] →
      tp - t < throttleInterval →
      (notify_progress (notify_progress st sid "streaming" "partial" t).1
          sid "streaming" "partial" tp).2 = []) ∧
    (∀ (st : PCState) (sid step status : String) (t : ℚ) (cs : List Observer),
      pcLookup st sid = some cs →
      ((step == "streaming") && (status == "partial")) = false →
      notify_progress st sid step status t = (st, deliverLoop cs)) := by
  constructor
  · intro st sid t tp cs hcs hne hlt
    obtain ⟨hcs2, hlast2⟩ := notify_streaming_delivered st sid t cs hcs hne
    rw [notify_streaming_throttled _ sid tp t cs hcs2 hlast2 hlt]
  · intro st sid step status t cs hcs hcond
    exact notify_nonpartial_eq st sid step status t cs hcs hcond

/-- The notifier in the claim-C5 counterexample: session `s` has a live
observer and the last delivered stream update was at time 0. -/
def c5State : PCState :=
  ⟨[("s", [⟨0, false⟩])], [("s_last_stream", 0)]⟩

theorem c5_final_partial_dropped_counterexample :
    (notify_progress c5State "s" "streaming" "partial" (1 / 100)).2 = [] := by
  have h := notify_streaming_throttled c5State "s" (1 / 100) 0 [⟨0, false⟩]
    rfl rfl (by norm_num [throttleInterval])
  rw [h]

theorem c5_streaming_throttle_witness :
    pcLookup ⟨[("s", [⟨0, false⟩])], []⟩ "s" = some [⟨0, false⟩] ∧
    (notify_progress ⟨[("s", [⟨0, false⟩])], []⟩ "s" "streaming" "partial" 0).2
      ≠ [] ∧
    ((1 : ℚ) / 100) - 0 < throttleInterval ∧
    (notify_progress
        (notify_progress ⟨[("s", [⟨0, false⟩])], []⟩ "s" "streaming" "partial" 0).1
        "s" "streaming" "partial" (1 / 100)).2 = [] := by
  have hne : (notify_progress ⟨[("s", [⟨0, false⟩])], []⟩ "s" "streaming"
      "partial" 0).2 ≠ [] := by
    intro h
    exact absurd h (by decide)
  have hlt : ((1 : ℚ) / 100) - 0 < throttleInterval := by
    norm_num [throttleInterval]
  exact ⟨rfl, hne,  hlt,
    c5_streaming_throttle.1 ⟨[("s", [⟨0, false⟩])], []⟩ "s" 0 (1 / 100)
      [⟨0, false⟩] rfl hne hlt⟩

theorem deliverLoop_map_fst (cs : List Observer) :
    (deliverLoop cs).map Prod.fst = cs.map Observer.id := by
  induction cs with
  | nil => rfl
  | cons c rest ih => simp [deliverLoop, ih]

/-- C10: when a session has registered observers and a (non-throttled)
progress event is notified, every observer is attempted exactly once in
registration (insertion) order — a raising observer is recorded as a failed
attempt without stopping delivery to the remaining observers — and
`notify_progress` returns normally instead of propagating the exception. -/
theorem c10_observer_exception_isolation :
    ∀ (st : PCState) (sid step status : String) (t : ℚ) (cs : List Observer),
      pcLookup st sid = some cs →
      ((step == "streaming") && (status == "partial")) = false →
      (notify_progress st sid step status t).2 = deliverLoop cs ∧
      (deliverLoop cs).map Prod.fst = cs.map Observer.id := by
  intro st sid step status t cs hcs hcond
  rw [notify_nonpartial_eq st sid step status t cs hcs hcond]
  exact ⟨rfl, deliverLoop_map_fst cs⟩

theorem c10_observer_exception_isolation_witness :
    pcLookup ⟨[("s", [⟨0, false⟩, ⟨1, true⟩, ⟨2, false⟩])], []⟩ "s" =
      some [⟨0, false⟩, ⟨1, true⟩, ⟨2, false⟩] ∧
    ((("supervisor" : String) == "streaming") &&
      (("active" : String) == "partial")) = false ∧
    (notify_progress ⟨[("s", [⟨0, false⟩, ⟨1, true⟩, ⟨2, false⟩])], []⟩
        "s" "supervisor" "active" 0).2 = [(0, true), (1, false), (2, true)] := by
  have h := c10_observer_exception_isolation
    ⟨[("s", [⟨0, false⟩, ⟨1, true⟩, ⟨2, false⟩])], []⟩
    "s" "supervisor" "active" 0 [⟨0, false⟩, ⟨1, true⟩, ⟨2, false⟩] rfl rfl
  refine ⟨rfl, rfl, ?_⟩
  rw [h.1]
  rfl

end Ragent
